import Mathlib

/-! XMPLifecycle: the initialisation gate around the XMP toolkit

A shallow embedding of `Sources/SPFKMetadataXMPC/XMPLifecycle.cpp`.

The C++ class keeps one flag, `_isInitialized`, and drives the two halves of the
Adobe XMP toolkit, `SXMPMeta` and `SXMPFiles`.  The toolkit is an external library:
it is taken as a parameter (`Toolkit E`, over an arbitrary toolkit state `E`), so
every theorem holds for every possible behaviour of the toolkit.  Each toolkit
call is also appended to a log (`World.calls`), which is what the statements
about "which engine calls are made, and in which order" are about.
-/

/-- The C++ type `XMP_OptionBits` (an unsigned 32 bit word); only the constant 0 is used. -/
abbrev XMP_OptionBits := Nat

/-- The external XMP toolkit, as far as `XMPLifecycle.cpp` uses it: the four static
functions it calls, acting on a toolkit state `E`.  Both `Initialize` functions
report success as a `bool`; both `Terminate` functions return nothing. -/
structure Toolkit (E : Type) where
  /-- The call `SXMPMeta::Initialize()`. -/
  SXMPMeta_Initialize : E → Bool × E
  /-- The call `SXMPFiles::Initialize(options)`. -/
  SXMPFiles_Initialize : XMP_OptionBits → E → Bool × E
  /-- The call `SXMPFiles::Terminate()`. -/
  SXMPFiles_Terminate : E → E
  /-- The call `SXMPMeta::Terminate()`. -/
  SXMPMeta_Terminate : E → E

/-- One call made to the toolkit, with its argument and its answer. -/
inductive EngineCall where
  | SXMPMeta_Initialize (result : Bool)
  | SXMPFiles_Initialize (options : XMP_OptionBits) (result : Bool)
  | SXMPFiles_Terminate
  | SXMPMeta_Terminate
  deriving DecidableEq, Repr

/-- The data member of the C++ class `XMPLifecycle`.  The class is declared in
`XMPLifecycle.hpp`; the member functions read and write `_isInitialized` as a `bool`. -/
structure XMPLifecycle where
  _isInitialized : Bool
  deriving DecidableEq, Repr

/-- Everything a member function of `XMPLifecycle` can read or change: the object
itself, the state of the toolkit, the log of toolkit calls made so far (oldest
first) and the text written to `std::cout` (oldest first). -/
structure World (E : Type) where
  self : XMPLifecycle
  toolkit : E
  calls : List EngineCall
  cout : List String
  deriving DecidableEq, Repr

namespace World

variable {E : Type}

/-- Perform `SXMPMeta::Initialize()` and log it. -/
def callMetaInitialize (X : Toolkit E) (w : World E) : Bool × World E :=
  let r := X.SXMPMeta_Initialize w.toolkit
  (r.1, { w with toolkit := r.2, calls := w.calls ++ [EngineCall.SXMPMeta_Initialize r.1] })

/-- Perform `SXMPFiles::Initialize(options)` and log it. -/
def callFilesInitialize (X : Toolkit E) (options : XMP_OptionBits) (w : World E) :
    Bool × World E :=
  let r := X.SXMPFiles_Initialize options w.toolkit
  (r.1, { w with toolkit := r.2,
                 calls := w.calls ++ [EngineCall.SXMPFiles_Initialize options r.1] })

/-- Perform `SXMPFiles::Terminate()` and log it. -/
def callFilesTerminate (X : Toolkit E) (w : World E) : World E :=
  { w with toolkit := X.SXMPFiles_Terminate w.toolkit,
           calls := w.calls ++ [EngineCall.SXMPFiles_Terminate] }

/-- Perform `SXMPMeta::Terminate()` and log it. -/
def callMetaTerminate (X : Toolkit E) (w : World E) : World E :=
  { w with toolkit := X.SXMPMeta_Terminate w.toolkit,
           calls := w.calls ++ [EngineCall.SXMPMeta_Terminate] }

/-- The statement `std::cout << msg << std::endl;`. -/
def print (msg : String) (w : World E) : World E :=
  { w with cout := w.cout ++ [msg ++ "\n"] }

/-- The assignment `_isInitialized = b;`. -/
def setInitialized (b : Bool) (w : World E) : World E :=
  { w with self := { w.self with _isInitialized := b } }

end World

/-- The member function `bool XMPLifecycle::isInitialized()`: it returns the flag. -/
def XMPLifecycle.isInitialized {E : Type} (w : World E) : Bool :=
  w.self._isInitialized

/-- The member function `bool XMPLifecycle::initialize()`: the returned `bool` and the
world it leaves. -/
def XMPLifecycle.initialize {E : Type} (X : Toolkit E) (w : World E) : Bool × World E :=
  if w.self._isInitialized then
    (true, w)
  else
    let r1 := w.callMetaInitialize X
    if !r1.1 then
      (false, r1.2.print "Could not initialize toolkit!")
    else
      let options : XMP_OptionBits := 0
      let r2 := r1.2.callFilesInitialize X options
      if !r2.1 then
        (false, r2.2.print "Could not initialize SXMPFiles.")
      else
        (true, r2.2.setInitialized true)

/-- The member function `void XMPLifecycle::terminate()`: the world it leaves. -/
def XMPLifecycle.terminate {E : Type} (X : Toolkit E) (w : World E) : World E :=
  if !w.self._isInitialized then
    w
  else
    (w.callFilesTerminate X).callMetaTerminate X

/-! ## Which subsystems are held, read off the call log -/

/-- Whether the metadata subsystem is held after one more toolkit call: a successful
`SXMPMeta::Initialize()` acquires it, `SXMPMeta::Terminate()` releases it, and
nothing else changes it. -/
def metaStep (held : Bool) : EngineCall → Bool
  | EngineCall.SXMPMeta_Initialize true => true
  | EngineCall.SXMPMeta_Terminate => false
  | _ => held

/-- Whether the file subsystem is held after one more toolkit call: a successful
`SXMPFiles::Initialize(options)` acquires it, `SXMPFiles::Terminate()` releases it,
and nothing else changes it. -/
def filesStep (held : Bool) : EngineCall → Bool
  | EngineCall.SXMPFiles_Initialize _ true => true
  | EngineCall.SXMPFiles_Terminate => false
  | _ => held

/-- The metadata subsystem is acquired and not yet released, after the logged calls
(starting from "not acquired"). -/
def metaAcquired (calls : List EngineCall) : Bool :=
  calls.foldl metaStep false

/-- The file subsystem is acquired and not yet released, after the logged calls
(starting from "not acquired"). -/
def filesAcquired (calls : List EngineCall) : Bool :=
  calls.foldl filesStep false

/-! ## Sequences of lifecycle calls -/

/-- A call a client can make on the lifecycle object. -/
inductive LifecycleOp where
  | init
  | term
  deriving DecidableEq, Repr

/-- Run one client call; the value `initialize()` returns is dropped. -/
def stepOp {E : Type} (X : Toolkit E) (w : World E) : LifecycleOp → World E
  | LifecycleOp.init => ( XMPLifecycle.initialize X w).2
  | LifecycleOp.term => XMPLifecycle.terminate X w

/-- Run a finite sequence of client calls, first to last. -/
def runOps {E : Type} (X : Toolkit E) (ops : List LifecycleOp) (w : World E) : World E :=
  ops.foldl (stepOp X) w

/-- The world before any lifecycle call: the flag is false, no toolkit call has been
made (so no subsystem is acquired) and nothing has been printed. -/
def World.start {E : Type} (e : E) : World E :=
  { self := { _isInitialized := false }, toolkit := e, calls := [], cout := [] }

/-! ## A concrete toolkit, for evaluating the code -/

/-- A toolkit whose `Initialize` calls take their answers, in order, from a script
(`false` once the script is used up); its `Terminate` calls do nothing to the script. -/
def scriptedToolkit : Toolkit (List Bool) where
  SXMPMeta_Initialize := fun s => (s.headD false, s.tail)
  SXMPFiles_Initialize := fun _ s => (s.headD false, s.tail)
  SXMPFiles_Terminate := fun s => s
  SXMPMeta_Terminate := fun s => s

/-- The subsystem a toolkit call belongs to: `true` for `SXMPMeta`, `false` for
`SXMPFiles`. -/
def EngineCall.isMeta : EngineCall → Bool
  | EngineCall.SXMPMeta_Initialize _ => true
  | EngineCall.SXMPMeta_Terminate => true
  | _ => false

/-! ## Basic facts about the two member functions -/

section Basic

variable {E : Type}

/-- When the flag is set, `initialize()` returns `true` at once and touches nothing. -/
theorem initialize_eq_of_flag (X : Toolkit E) (w : World E)
    (h : w.self._isInitialized = true) :
    XMPLifecycle.initialize X w = (true, w) := by
  simp [ XMPLifecycle.initialize, h]

/-- When the flag is clear and `SXMPMeta::Initialize()` fails, `initialize()` makes that
one call, prints its message and returns `false`. -/
theorem initialize_eq_of_meta_fail (X : Toolkit E) (w : World E)
    (h : w.self._isInitialized = false)
    (h1 : (X.SXMPMeta_Initialize w.toolkit).1 = false) :
    XMPLifecycle.initialize X w
      = (false, (w.callMetaInitialize X).2.print "Could not initialize toolkit!") := by
  simp [ XMPLifecycle.initialize, World.callMetaInitialize, h, h1]

/-- When the flag is clear, `SXMPMeta::Initialize()` succeeds and
`SXMPFiles::Initialize(0)` fails, `initialize()` makes those two calls, prints its
message and returns `false`. -/
theorem initialize_eq_of_files_fail (X : Toolkit E) (w : World E)
    (h : w.self._isInitialized = false)
    (h1 : (X.SXMPMeta_Initialize w.toolkit).1 = true)
    (h2 : (X.SXMPFiles_Initialize 0 (X.SXMPMeta_Initialize w.toolkit).2).1 = false) :
    XMPLifecycle.initialize X w
      = (false, ((w.callMetaInitialize X).2.callFilesInitialize X 0).2.print
          "Could not initialize SXMPFiles.") := by
  simp [ XMPLifecycle.initialize, World.callMetaInitialize, World.callFilesInitialize, h, h1, h2]

/-- When the flag is clear and both `Initialize` calls succeed, `initialize()` makes
those two calls, sets the flag and returns `true`. -/
theorem initialize_eq_of_both_ok (X : Toolkit E) (w : World E)
    (h : w.self._isInitialized = false)
    (h1 : (X.SXMPMeta_Initialize w.toolkit).1 = true)
    (h2 : (X.SXMPFiles_Initialize 0 (X.SXMPMeta_Initialize w.toolkit).2).1 = true) :
    XMPLifecycle.initialize X w
      = (true, ((w.callMetaInitialize X).2.callFilesInitialize X 0).2.setInitialized true) := by
  simp [ XMPLifecycle.initialize, World.callMetaInitialize, World.callFilesInitialize, h, h1, h2]

/-- When the flag is clear, `terminate()` returns at once and touches nothing. -/
theorem terminate_eq_of_not_flag (X : Toolkit E) (w : World E)
    (h : w.self._isInitialized = false) :
    XMPLifecycle.terminate X w = w := by
  simp [XMPLifecycle.terminate, h]

/-- When the flag is set, `terminate()` makes its two toolkit calls. -/
theorem terminate_eq_of_flag (X : Toolkit E) (w : World E)
    (h : w.self._isInitialized = true) :
    XMPLifecycle.terminate X w = (w.callFilesTerminate X).callMetaTerminate X := by
  simp [XMPLifecycle.terminate, h]

/-- No path through `terminate()` assigns to `_isInitialized`. -/
theorem terminate_self (X : Toolkit E) (w : World E) :
    ( XMPLifecycle.terminate X w).self = w.self := by
  unfold XMPLifecycle.terminate
  split <;> rfl

/-- A set flag stays set through `initialize()`. -/
theorem initialize_flag_mono (X : Toolkit E) (w : World E)
    (h : w.self._isInitialized = true) :
    ( XMPLifecycle.initialize X w).2.self._isInitialized = true := by
  rw [initialize_eq_of_flag X w h]; exact h

end Basic

/-! ## The lifecycle claims -/

section Claims

variable {E : Type}

/-- C1, evaluated on the code: the scenario initialize, terminate, isInitialized.
With a toolkit whose two `Initialize` calls succeed, `initialize()` returns `true`
and sets the flag; `terminate()` then releases both subsystems but never clears
`_isInitialized`, so `isInitialized()` still returns `true` afterwards. -/
theorem isInitialized_true_after_terminate :
    ( XMPLifecycle.initialize scriptedToolkit (World.start [true, true])).1 = true ∧
    XMPLifecycle.isInitialized
      ( XMPLifecycle.initialize scriptedToolkit (World.start [true, true])).2 = true ∧
    XMPLifecycle.isInitialized
      ( XMPLifecycle.terminate scriptedToolkit
        ( XMPLifecycle.initialize scriptedToolkit (World.start [true, true])).2) = true := by
  decide

/-- C2: from a state where `isInitialized()` is false, if `SXMPMeta::Initialize()` and
then `SXMPFiles::Initialize(0)` both report success, `initialize()` returns `true` and
`isInitialized()` is true immediately afterwards. -/
theorem initialize_succeeds (X : Toolkit E) (w : World E)
    (h : XMPLifecycle.isInitialized w = false)
    (h1 : (X.SXMPMeta_Initialize w.toolkit).1 = true)
    (h2 : (X.SXMPFiles_Initialize 0 (X.SXMPMeta_Initialize w.toolkit).2).1 = true) :
    ( XMPLifecycle.initialize X w).1 = true ∧
    XMPLifecycle.isInitialized ( XMPLifecycle.initialize X w).2 = true := by
  rw [initialize_eq_of_both_ok X w h h1 h2]
  exact ⟨rfl, rfl⟩

/-- Witness for C2: the scripted toolkit answering success twice, from the start. -/
theorem initialize_succeeds_witness :
    ( XMPLifecycle.initialize scriptedToolkit (World.start [true, true])).1 = true ∧
    XMPLifecycle.isInitialized
      ( XMPLifecycle.initialize scriptedToolkit (World.start [true, true])).2 = true :=
  initialize_succeeds scriptedToolkit (World.start [true, true]) rfl rfl rfl

/-- C3: `initialize()` is idempotent.  In a state where `isInitialized()` is true it
returns `true` and leaves the whole world as it was: the flag, the toolkit state and
the call log, so no toolkit call is made.  Hence when a first `initialize()` returns
`true`, a second one right after it gives the same return value and the same world
(same flag, same toolkit state, same sequence of toolkit calls) as the first alone. -/
theorem initialize_idempotent (X : Toolkit E) (w : World E) :
    (XMPLifecycle.isInitialized w = true →
      XMPLifecycle.initialize X w = (true, w) ∧
      ( XMPLifecycle.initialize X w).2.calls = w.calls) ∧
    (( XMPLifecycle.initialize X w).1 = true →
      XMPLifecycle.initialize X ( XMPLifecycle.initialize X w).2
        = XMPLifecycle.initialize X w) := by
  refine ⟨fun h => ?_, fun hr => ?_⟩
  · rw [initialize_eq_of_flag X w h]
    exact ⟨rfl, rfl⟩
  · have hflag : ( XMPLifecycle.initialize X w).2.self._isInitialized = true := by
      cases h : w.self._isInitialized with
      | true => exact initialize_flag_mono X w h
      | false =>
        cases h1 : (X.SXMPMeta_Initialize w.toolkit).1 with
        | false =>
          rw [initialize_eq_of_meta_fail X w h h1] at hr
          exact absurd hr (by simp)
        | true =>
          cases h2 : (X.SXMPFiles_Initialize 0 (X.SXMPMeta_Initialize w.toolkit).2).1 with
          | false =>
            rw [initialize_eq_of_files_fail X w h h1 h2] at hr
            exact absurd hr (by simp)
          | true =>
            rw [initialize_eq_of_both_ok X w h h1 h2]
            rfl
    rw [initialize_eq_of_flag X _ hflag]
    exact Prod.ext hr.symm rfl

/-- Witness for C3: the first part at the world left by a successful `initialize()`,
the second part at the start world with a toolkit that succeeds. -/
theorem initialize_idempotent_witness :
    ( XMPLifecycle.initialize scriptedToolkit
        ( XMPLifecycle.initialize scriptedToolkit (World.start [true, true, true, true])).2
      = (true, ( XMPLifecycle.initialize scriptedToolkit
          (World.start [true, true, true, true])).2) ∧
      ( XMPLifecycle.initialize scriptedToolkit
        ( XMPLifecycle.initialize scriptedToolkit
          (World.start [true, true, true, true])).2).2.calls
        = [EngineCall.SXMPMeta_Initialize true, EngineCall.SXMPFiles_Initialize 0 true]) ∧
    XMPLifecycle.initialize scriptedToolkit
        ( XMPLifecycle.initialize scriptedToolkit (World.start [true, true, true, true])).2
      = XMPLifecycle.initialize scriptedToolkit (World.start [true, true, true, true]) :=
  ⟨(initialize_idempotent scriptedToolkit
      ( XMPLifecycle.initialize scriptedToolkit (World.start [true, true, true, true])).2).1 rfl,
   (initialize_idempotent scriptedToolkit (World.start [true, true, true, true])).2 rfl⟩

/-- C4, evaluated on the code: after a successful `initialize()`, a first `terminate()`
calls `SXMPFiles::Terminate()` and `SXMPMeta::Terminate()`; since the flag is still
set, a second `terminate()` makes both calls again, so each subsystem is released
twice and the world after two calls differs from the world after one. -/
theorem terminate_twice_releases_twice :
    ( XMPLifecycle.terminate scriptedToolkit
      ( XMPLifecycle.initialize scriptedToolkit (World.start [true, true])).2).calls
      = [EngineCall.SXMPMeta_Initialize true, EngineCall.SXMPFiles_Initialize 0 true,
         EngineCall.SXMPFiles_Terminate, EngineCall.SXMPMeta_Terminate] ∧
    ( XMPLifecycle.terminate scriptedToolkit
      ( XMPLifecycle.terminate scriptedToolkit
        ( XMPLifecycle.initialize scriptedToolkit (World.start [true, true])).2)).calls
      = [EngineCall.SXMPMeta_Initialize true, EngineCall.SXMPFiles_Initialize 0 true,
         EngineCall.SXMPFiles_Terminate, EngineCall.SXMPMeta_Terminate,
         EngineCall.SXMPFiles_Terminate, EngineCall.SXMPMeta_Terminate] ∧
    XMPLifecycle.terminate scriptedToolkit
      ( XMPLifecycle.terminate scriptedToolkit
        ( XMPLifecycle.initialize scriptedToolkit (World.start [true, true])).2)
      ≠ XMPLifecycle.terminate scriptedToolkit
        ( XMPLifecycle.initialize scriptedToolkit (World.start [true, true])).2 := by
  decide

/-- C5, evaluated on the code: from the start world, after `initialize()` (both
toolkit calls succeeding) and then `terminate()`, `isInitialized()` is true although
neither the metadata subsystem nor the file subsystem is still acquired. -/
theorem flag_set_without_subsystems :
    XMPLifecycle.isInitialized
      (runOps scriptedToolkit [LifecycleOp.init, LifecycleOp.term]
        (World.start [true, true])) = true ∧
    metaAcquired
      (runOps scriptedToolkit [LifecycleOp.init, LifecycleOp.term]
        (World.start [true, true])).calls = false ∧
    filesAcquired
      (runOps scriptedToolkit [LifecycleOp.init, LifecycleOp.term]
        (World.start [true, true])).calls = false := by
  decide

/-- C6: from a state where `isInitialized()` is false, if `SXMPMeta::Initialize()` fails,
or it succeeds and `SXMPFiles::Initialize(0)` fails, then `initialize()` returns `false`
(as an ordinary return value) and `isInitialized()` is still false afterwards. -/
theorem initialize_failure_keeps_flag (X : Toolkit E) (w : World E)
    (h : XMPLifecycle.isInitialized w = false)
    (hfail : (X.SXMPMeta_Initialize w.toolkit).1 = false ∨
      ((X.SXMPMeta_Initialize w.toolkit).1 = true ∧
        (X.SXMPFiles_Initialize 0 (X.SXMPMeta_Initialize w.toolkit).2).1 = false)) :
    ( XMPLifecycle.initialize X w).1 = false ∧
    XMPLifecycle.isInitialized ( XMPLifecycle.initialize X w).2 = false := by
  rcases hfail with h1 | ⟨h1, h2⟩
  · rw [initialize_eq_of_meta_fail X w h h1]
    exact ⟨rfl, h⟩
  · rw [initialize_eq_of_files_fail X w h h1 h2]
    exact ⟨rfl, h⟩

/-- Witness for C6: the metadata subsystem starts, the file subsystem does not. -/
theorem initialize_failure_keeps_flag_witness :
    ( XMPLifecycle.initialize scriptedToolkit (World.start [true, false])).1 = false ∧
    XMPLifecycle.isInitialized
      ( XMPLifecycle.initialize scriptedToolkit (World.start [true, false])).2 = false :=
  initialize_failure_keeps_flag scriptedToolkit (World.start [true, false]) rfl
    (Or.inr ⟨rfl, rfl⟩)

/-- C7 as stated fails: with `SXMPMeta::Initialize()` succeeding and
`SXMPFiles::Initialize(0)` failing, `initialize()` returns `false` without having
called `SXMPMeta::Terminate()`, and the metadata subsystem is still acquired. -/
theorem initialize_leaves_meta_acquired :
    (scriptedToolkit.SXMPMeta_Initialize (World.start [true, false]).toolkit).1 = true ∧
    (scriptedToolkit.SXMPFiles_Initialize 0
      (scriptedToolkit.SXMPMeta_Initialize (World.start [true, false]).toolkit).2).1 = false ∧
    ( XMPLifecycle.initialize scriptedToolkit (World.start [true, false])).1 = false ∧
    EngineCall.SXMPMeta_Terminate ∉
      ( XMPLifecycle.initialize scriptedToolkit (World.start [true, false])).2.calls ∧
    metaAcquired
      ( XMPLifecycle.initialize scriptedToolkit (World.start [true, false])).2.calls = true := by
  decide

/-- C7, amended: in every run of `initialize()` from a state where `isInitialized()` is
false, where `SXMPMeta::Initialize()` succeeds and `SXMPFiles::Initialize(0)` then
fails, `initialize()` returns `false` after exactly those two toolkit calls:
`SXMPMeta::Terminate()` is not called, so the metadata subsystem is left acquired,
while the run leaves the file subsystem as it found it. -/
theorem initialize_files_failure_no_rollback (X : Toolkit E) (w : World E)
    (h : XMPLifecycle.isInitialized w = false)
    (h1 : (X.SXMPMeta_Initialize w.toolkit).1 = true)
    (h2 : (X.SXMPFiles_Initialize 0 (X.SXMPMeta_Initialize w.toolkit).2).1 = false) :
    ( XMPLifecycle.initialize X w).1 = false ∧
    ( XMPLifecycle.initialize X w).2.calls
      = w.calls ++ [EngineCall.SXMPMeta_Initialize true,
                    EngineCall.SXMPFiles_Initialize 0 false] ∧
    metaAcquired ( XMPLifecycle.initialize X w).2.calls = true ∧
    filesAcquired ( XMPLifecycle.initialize X w).2.calls = filesAcquired w.calls := by
  rw [initialize_eq_of_files_fail X w h h1 h2]
  simp [World.print, World.callFilesInitialize, World.callMetaInitialize, h1, h2,
    metaAcquired, filesAcquired, List.foldl_append, metaStep, filesStep]

/-- Witness for C7 amended: the scripted toolkit answering success, then failure. -/
theorem initialize_files_failure_no_rollback_witness :
    ( XMPLifecycle.initialize scriptedToolkit (World.start [true, false])).1 = false ∧
    ( XMPLifecycle.initialize scriptedToolkit (World.start [true, false])).2.calls
      = (World.start [true, false]).calls ++ [EngineCall.SXMPMeta_Initialize true,
                    EngineCall.SXMPFiles_Initialize 0 false] ∧
    metaAcquired
      ( XMPLifecycle.initialize scriptedToolkit (World.start [true, false])).2.calls = true ∧
    filesAcquired
      ( XMPLifecycle.initialize scriptedToolkit (World.start [true, false])).2.calls
      = filesAcquired (World.start [true, false]).calls :=
  initialize_files_failure_no_rollback scriptedToolkit (World.start [true, false]) rfl rfl rfl

/-- C8: in a state where `isInitialized()` is false, `terminate()` returns (it is a
total function) and leaves the whole world as it was: the flag, the toolkit state
and the call log, so neither `SXMPFiles::Terminate()` nor `SXMPMeta::Terminate()` is
called. -/
theorem terminate_noop_when_not_initialized (X : Toolkit E) (w : World E)
    (h : XMPLifecycle.isInitialized w = false) :
    XMPLifecycle.terminate X w = w ∧
    ( XMPLifecycle.terminate X w).calls = w.calls := by
  rw [terminate_eq_of_not_flag X w h]
  exact ⟨rfl, rfl⟩

/-- Witness for C8: `terminate()` before any `initialize()`. -/
theorem terminate_noop_when_not_initialized_witness :
    XMPLifecycle.terminate scriptedToolkit (World.start [true, true])
      = World.start [true, true] ∧
    ( XMPLifecycle.terminate scriptedToolkit (World.start [true, true])).calls
      = (World.start [true, true]).calls :=
  terminate_noop_when_not_initialized scriptedToolkit (World.start [true, true]) rfl

/-- C9: in a run of `initialize()` from a state where `isInitialized()` is false, the
toolkit calls made are, in order: `SXMPMeta::Initialize()` alone when it fails; and
when it succeeds, `SXMPMeta::Initialize()` followed by exactly one
`SXMPFiles::Initialize(options)` with `options = 0`, made on the toolkit state that
`SXMPMeta::Initialize()` left. -/
theorem initialize_call_order (X : Toolkit E) (w : World E)
    (h : XMPLifecycle.isInitialized w = false) :
    ((X.SXMPMeta_Initialize w.toolkit).1 = false →
      ( XMPLifecycle.initialize X w).2.calls
        = w.calls ++ [EngineCall.SXMPMeta_Initialize false] ∧
      ( XMPLifecycle.initialize X w).2.toolkit = (X.SXMPMeta_Initialize w.toolkit).2) ∧
    ((X.SXMPMeta_Initialize w.toolkit).1 = true →
      ( XMPLifecycle.initialize X w).2.calls
        = w.calls ++ [EngineCall.SXMPMeta_Initialize true,
            EngineCall.SXMPFiles_Initialize 0
              (X.SXMPFiles_Initialize 0 (X.SXMPMeta_Initialize w.toolkit).2).1] ∧
      ( XMPLifecycle.initialize X w).2.toolkit
        = (X.SXMPFiles_Initialize 0 (X.SXMPMeta_Initialize w.toolkit).2).2) := by
  refine ⟨fun h1 => ?_, fun h1 => ?_⟩
  · rw [initialize_eq_of_meta_fail X w h h1]
    simp [World.print, World.callMetaInitialize, h1]
  · cases h2 : (X.SXMPFiles_Initialize 0 (X.SXMPMeta_Initialize w.toolkit).2).1 with
    | false =>
      rw [initialize_eq_of_files_fail X w h h1 h2]
      simp [World.print, World.callFilesInitialize, World.callMetaInitialize, h1, h2]
    | true =>
      rw [initialize_eq_of_both_ok X w h h1 h2]
      simp [World.setInitialized, World.callFilesInitialize, World.callMetaInitialize, h1, h2]

/-- Witness for C9: a failing `SXMPMeta::Initialize()` (no file call follows), and a
succeeding one followed by a failing `SXMPFiles::Initialize(0)`. -/
theorem initialize_call_order_witness :
    (( XMPLifecycle.initialize scriptedToolkit (World.start [false, true])).2.calls
        = (World.start [false, true]).calls ++ [EngineCall.SXMPMeta_Initialize false] ∧
      ( XMPLifecycle.initialize scriptedToolkit (World.start [false, true])).2.toolkit
        = (scriptedToolkit.SXMPMeta_Initialize (World.start [false, true]).toolkit).2) ∧
    (( XMPLifecycle.initialize scriptedToolkit (World.start [true, false])).2.calls
        = (World.start [true, false]).calls ++ [EngineCall.SXMPMeta_Initialize true,
            EngineCall.SXMPFiles_Initialize 0
              (scriptedToolkit.SXMPFiles_Initialize 0
                (scriptedToolkit.SXMPMeta_Initialize (World.start [true, false]).toolkit).2).1] ∧
      ( XMPLifecycle.initialize scriptedToolkit (World.start [true, false])).2.toolkit
        = (scriptedToolkit.SXMPFiles_Initialize 0
            (scriptedToolkit.SXMPMeta_Initialize (World.start [true, false]).toolkit).2).2) :=
  ⟨(initialize_call_order scriptedToolkit (World.start [false, true]) rfl).1 rfl,
   (initialize_call_order scriptedToolkit (World.start [true, false]) rfl).2 rfl⟩

/-- C10: in a state where `isInitialized()` is true, `terminate()` makes exactly two
toolkit calls, `SXMPFiles::Terminate()` first and `SXMPMeta::Terminate()` second (the
second acting on the toolkit state the first left).  This is the reverse of the
acquisition order: for every successful run of `initialize()` from a state where
`isInitialized()` was false, the subsystems of the calls `terminate()` adds to the log
are those of the calls `initialize()` added, in reverse. -/
theorem terminate_call_order (X : Toolkit E) (w : World E)
    (h : XMPLifecycle.isInitialized w = true) :
    ( XMPLifecycle.terminate X w).calls
      = w.calls ++ [EngineCall.SXMPFiles_Terminate, EngineCall.SXMPMeta_Terminate] ∧
    ( XMPLifecycle.terminate X w).toolkit
      = X.SXMPMeta_Terminate (X.SXMPFiles_Terminate w.toolkit) ∧
    ∀ w0 : World E, XMPLifecycle.isInitialized w0 = false →
      ( XMPLifecycle.initialize X w0).1 = true →
      ((( XMPLifecycle.terminate X w).calls.drop w.calls.length).map EngineCall.isMeta
        = (((( XMPLifecycle.initialize X w0).2.calls.drop w0.calls.length).map
            EngineCall.isMeta).reverse)) := by
  rw [terminate_eq_of_flag X w h]
  refine ⟨by simp [World.callMetaTerminate, World.callFilesTerminate],
    by simp [World.callMetaTerminate, World.callFilesTerminate], fun w0 h0 hr => ?_⟩
  cases h1 : (X.SXMPMeta_Initialize w0.toolkit).1 with
  | false =>
    rw [initialize_eq_of_meta_fail X w0 h0 h1] at hr
    exact absurd hr (by simp)
  | true =>
    cases h2 : (X.SXMPFiles_Initialize 0 (X.SXMPMeta_Initialize w0.toolkit).2).1 with
    | false =>
      rw [initialize_eq_of_files_fail X w0 h0 h1 h2] at hr
      exact absurd hr (by simp)
    | true =>
      rw [initialize_eq_of_both_ok X w0 h0 h1 h2]
      simp [World.callMetaTerminate, World.callFilesTerminate, World.setInitialized,
        World.callFilesInitialize, World.callMetaInitialize, EngineCall.isMeta]

/-- Witness for C10: `terminate()` on the world left by a successful `initialize()`. -/
theorem terminate_call_order_witness :
    ( XMPLifecycle.terminate scriptedToolkit
      ( XMPLifecycle.initialize scriptedToolkit (World.start [true, true])).2).calls
      = ( XMPLifecycle.initialize scriptedToolkit (World.start [true, true])).2.calls
        ++ [EngineCall.SXMPFiles_Terminate, EngineCall.SXMPMeta_Terminate] ∧
    ((( XMPLifecycle.terminate scriptedToolkit
      ( XMPLifecycle.initialize scriptedToolkit (World.start [true, true])).2).calls.drop
        ( XMPLifecycle.initialize scriptedToolkit
          (World.start [true, true])).2.calls.length).map EngineCall.isMeta
      = (((( XMPLifecycle.initialize scriptedToolkit (World.start [true, true])).2.calls.drop
          (World.start [true, true]).calls.length).map EngineCall.isMeta).reverse)) :=
  ⟨(terminate_call_order scriptedToolkit
      ( XMPLifecycle.initialize scriptedToolkit (World.start [true, true])).2 rfl).1,
   (terminate_call_order scriptedToolkit
      ( XMPLifecycle.initialize scriptedToolkit (World.start [true, true])).2 rfl).2.2
      (World.start [true, true]) rfl rfl⟩

end Claims

/-! ## What does hold of the flag and the held subsystems

These facts locate the failure of the handle invariant: it is broken by
`terminate()` alone, which releases both subsystems and leaves the flag set. -/

section Invariant

variable {E : Type}

/-- The world `initialize()` leaves, by cases on the flag and the two toolkit answers:
the log grows by the calls made and the flag is set exactly on full success. -/
theorem initialize_calls_flag (X : Toolkit E) (w : World E) :
    (( XMPLifecycle.initialize X w).2.calls = w.calls ∧
      ( XMPLifecycle.initialize X w).2.self._isInitialized = true ∧
      w.self._isInitialized = true) ∨
    (( XMPLifecycle.initialize X w).2.calls
        = w.calls ++ [EngineCall.SXMPMeta_Initialize false] ∧
      ( XMPLifecycle.initialize X w).2.self._isInitialized = false ∧
      w.self._isInitialized = false) ∨
    (( XMPLifecycle.initialize X w).2.calls
        = w.calls ++ [EngineCall.SXMPMeta_Initialize true,
            EngineCall.SXMPFiles_Initialize 0 false] ∧
      ( XMPLifecycle.initialize X w).2.self._isInitialized = false ∧
      w.self._isInitialized = false) ∨
    (( XMPLifecycle.initialize X w).2.calls
        = w.calls ++ [EngineCall.SXMPMeta_Initialize true,
            EngineCall.SXMPFiles_Initialize 0 true] ∧
      ( XMPLifecycle.initialize X w).2.self._isInitialized = true ∧
      w.self._isInitialized = false) := by
  cases h : w.self._isInitialized with
  | true =>
    left
    rw [initialize_eq_of_flag X w h]
    exact ⟨rfl, h, rfl⟩
  | false =>
    right
    cases h1 : (X.SXMPMeta_Initialize w.toolkit).1 with
    | false =>
      left
      rw [initialize_eq_of_meta_fail X w h h1]
      simp [World.print, World.callMetaInitialize, h, h1]
    | true =>
      right
      cases h2 : (X.SXMPFiles_Initialize 0 (X.SXMPMeta_Initialize w.toolkit).2).1 with
      | false =>
        left
        rw [initialize_eq_of_files_fail X w h h1 h2]
        simp [World.print, World.callFilesInitialize, World.callMetaInitialize, h, h1, h2]
      | true =>
        right
        rw [initialize_eq_of_both_ok X w h h1 h2]
        simp [World.setInitialized, World.callFilesInitialize, World.callMetaInitialize, h1, h2]

/-- One lifecycle call keeps "the file subsystem is held only if the flag is set". -/
theorem stepOp_files_imp_flag (X : Toolkit E) (w : World E) (op : LifecycleOp)
    (hw : filesAcquired w.calls = true → w.self._isInitialized = true) :
    filesAcquired (stepOp X w op).calls = true → (stepOp X w op).self._isInitialized = true := by
  cases op with
  | init =>
    simp only [stepOp]
    rcases initialize_calls_flag X w with ⟨hc, hf, _⟩ | ⟨hc, _, h0⟩ | ⟨hc, _, h0⟩ | ⟨_, hf, _⟩
    · intro _; exact hf
    · rw [hc]
      intro hfa
      have : filesAcquired w.calls = true := by
        simpa [filesAcquired, List.foldl_append, filesStep] using hfa
      rw [hw this] at h0
      exact absurd h0 (by simp)
    · rw [hc]
      intro hfa
      have : filesAcquired w.calls = true := by
        simpa [filesAcquired, List.foldl_append, filesStep] using hfa
      rw [hw this] at h0
      exact absurd h0 (by simp)
    · intro _; exact hf
  | term =>
    simp only [stepOp]
    rw [terminate_self]
    cases h : w.self._isInitialized with
    | true => intro _; rfl
    | false =>
      rw [terminate_eq_of_not_flag X w h]
      intro hfa
      rw [hw hfa] at h
      exact absurd h (by simp)

/-- In every state reachable from the start world by `initialize()` and `terminate()`
calls, whatever the toolkit answers: if the file subsystem is acquired and not yet
released (in particular if both subsystems are), then `isInitialized()` is true. -/
theorem reachable_files_imp_flag (X : Toolkit E) (e : E) (ops : List LifecycleOp) :
    filesAcquired (runOps X ops (World.start e)).calls = true →
    XMPLifecycle.isInitialized (runOps X ops (World.start e)) = true := by
  have key : ∀ (l : List LifecycleOp) (w : World E),
      (filesAcquired w.calls = true → w.self._isInitialized = true) →
      (filesAcquired (runOps X l w).calls = true →
        (runOps X l w).self._isInitialized = true) := by
    intro l
    induction l with
    | nil => intro w hw; exact hw
    | cons op l ih =>
      intro w hw
      exact ih (stepOp X w op) (stepOp_files_imp_flag X w op hw)
  exact key ops (World.start e) (by simp [World.start, filesAcquired])

/-- In every state reachable from the start world by `initialize()` calls alone,
whatever the toolkit answers, `isInitialized()` is true exactly when both
subsystems are acquired and not yet released. -/
theorem reachable_by_initialize_flag_iff (X : Toolkit E) (e : E) (n : Nat) :
    XMPLifecycle.isInitialized
        (runOps X (List.replicate n LifecycleOp.init) (World.start e)) = true ↔
      (metaAcquired (runOps X (List.replicate n LifecycleOp.init) (World.start e)).calls = true ∧
       filesAcquired (runOps X (List.replicate n LifecycleOp.init) (World.start e)).calls
         = true) := by
  have key : ∀ (k : Nat) (w : World E),
      (w.self._isInitialized = filesAcquired w.calls ∧
        (w.self._isInitialized = true → metaAcquired w.calls = true)) →
      ((runOps X (List.replicate k LifecycleOp.init) w).self._isInitialized
          = filesAcquired (runOps X (List.replicate k LifecycleOp.init) w).calls ∧
        ((runOps X (List.replicate k LifecycleOp.init) w).self._isInitialized = true →
          metaAcquired (runOps X (List.replicate k LifecycleOp.init) w).calls = true)) := by
    intro k
    induction k with
    | zero => intro w hw; exact hw
    | succ k ih =>
      intro w hw
      have hstep : runOps X (List.replicate (k + 1) LifecycleOp.init) w
          = runOps X (List.replicate k LifecycleOp.init) (stepOp X w LifecycleOp.init) := rfl
      rw [hstep]
      apply ih
      simp only [stepOp]
      rcases initialize_calls_flag X w with
        ⟨hc, hf, h0⟩ | ⟨hc, hf, h0⟩ | ⟨hc, hf, h0⟩ | ⟨hc, hf, h0⟩
      · rw [hc, hf]
        exact ⟨by rw [← hw.1, h0], fun _ => hw.2 h0⟩
      · rw [hc, hf]
        have hfa : filesAcquired w.calls = false := by rw [← hw.1, h0]
        exact ⟨by simp [filesAcquired, List.foldl_append, filesStep] at hfa ⊢; exact hfa,
          fun hh => absurd hh (by simp)⟩
      · rw [hc, hf]
        have hfa : filesAcquired w.calls = false := by rw [← hw.1, h0]
        exact ⟨by simp [filesAcquired, List.foldl_append, filesStep] at hfa ⊢; exact hfa,
          fun hh => absurd hh (by simp)⟩
      · rw [hc, hf]
        exact ⟨by simp [filesAcquired, List.foldl_append, filesStep],
          fun _ => by simp [metaAcquired, List.foldl_append, metaStep]⟩
  have h := key n (World.start e) (by simp [World.start, filesAcquired, metaAcquired])
  unfold XMPLifecycle.isInitialized
  constructor
  · intro hf
    exact ⟨h.2 hf, by rw [← h.1]; exact hf⟩
  · intro hb
    rw [h.1]; exact hb.2

end Invariant
